import Mathlib

/-!
Verification of the Bluetooth connection manager of the Lumi application
(`src/public/sw.js`, `BluetoothProvider`).  The React provider's state hooks
are embedded as a record `ProviderState`; each operation of the provider
(`sendCommandInternal`, `sendCommand`, `handleDisconnect`, the
`gattserverdisconnected` handler, `disconnect`, the success path of
`connect`, the characteristic resolver) is translated into a pure Lean
function over that record, returning the updated state together with the
observable effects (BLE write attempts, local notifications, scheduled
retry timers).
-/

namespace Lumi

/-- The LED command codes of `LED_COMMANDS` in the source. -/
def LED_OFF : Nat := 0

/-- WATER command code. -/
def LED_WATER : Nat := 1

/-- BALANCED command code. -/
def LED_BALANCED : Nat := 2

/-- UNBALANCED command code. -/
def LED_UNBALANCED : Nat := 3

/-- GREAT_FINISH command code. -/
def LED_GREAT_FINISH : Nat := 4

/-- BAD_FINISH command code. -/
def LED_BAD_FINISH : Nat := 5

/-- BLE write mode: `writeValue` (acknowledged) vs
`writeValueWithoutResponse` (unacknowledged). -/
inductive WriteMode where
  | acked
  | unacked
deriving DecidableEq, Repr

/-- The `properties` object of a GATT characteristic, restricted to the
flags the source consults (`write`, `writeWithoutResponse`, `notify`). -/
structure CharProps where
  write : Bool
  writeWithoutResponse : Bool
  notify : Bool
deriving DecidableEq, Repr

/-- A GATT characteristic, together with the transport behaviour the
source's calls can observe: whether `writeValue` succeeds, whether the
object exposes a `writeValueWithoutResponse` method, and whether that
call succeeds. -/
structure Characteristic where
  props : CharProps
  writeValueOk : Bool
  hasWriteValueWithoutResponse : Bool
  writeValueWithoutResponseOk : Bool
deriving DecidableEq, Repr

/-- One BLE write attempt: the mode used, the payload bytes sent
(`Uint8Array([command])` in the source), and whether it succeeded. -/
structure WriteAttempt where
  mode : WriteMode
  payload : List Nat
  ok : Bool
deriving DecidableEq, Repr

/-- A local notification raised through `showNotification`. -/
structure Notification where
  title : String
  tag : String
deriving DecidableEq, Repr

/-- The hydration-reminder notification raised on a successful WATER
command. -/
def hydrationNotification : Notification :=
  { title := "Hora de hidratarte", tag := "hydration-alert" }

/-- The notification raised by `handleDisconnect`. -/
def disconnectedNotification : Notification :=
  { title := "Lumi desconectado", tag := "bluetooth-connection" }

/-- The observable outcome of one `sendCommandInternal` call. -/
structure SendResult where
  writes : List WriteAttempt
  notifications : List Notification
  ok : Bool
deriving DecidableEq, Repr

/-- A `sendCommandInternal` result with no writes and no notifications
(the early-return path of `sendCommand` when not connected). -/
def emptySendResult : SendResult :=
  { writes := [], notifications := [], ok := false }

/-- Translation of `sendCommandInternal(char, command)`:
build `Uint8Array([command])`, try `writeValue`; if it throws, try
`writeValueWithoutResponse` when the characteristic object exposes it,
otherwise rethrow; on success record the command and, when the command is
`WATER`, raise the hydration notification. -/
def sendCommandInternal (char : Characteristic) (command : Nat) : SendResult :=
  let payload : List Nat := [command % 256]
  if char.writeValueOk then
    { writes := [{ mode := .acked, payload := payload, ok := true }]
      notifications := if command = LED_WATER then [hydrationNotification] else []
      ok := true }
  else if char.hasWriteValueWithoutResponse then
    if char.writeValueWithoutResponseOk then
      { writes := [{ mode := .acked, payload := payload, ok := false },
                   { mode := .unacked, payload := payload, ok := true }]
        notifications := if command = LED_WATER then [hydrationNotification] else []
        ok := true }
    else
      { writes := [{ mode := .acked, payload := payload, ok := false },
                   { mode := .unacked, payload := payload, ok := false }]
        notifications := []
        ok := false }
  else
    { writes := [{ mode := .acked, payload := payload, ok := false }]
      notifications := []
      ok := false }

/-- The BLE device handle held in the `device` state hook: its name / id
fields and whether `device.gatt.connected` currently reports true. -/
structure Device where
  name : Option String
  id : String
  gattConnected : Bool
deriving DecidableEq, Repr

/-- The mutable state of `BluetoothProvider`: one field per React state
hook of the source. -/
structure ProviderState where
  device : Option Device
  characteristic : Option Characteristic
  isConnected : Bool
  isConnecting : Bool
  deviceName : Option String
  error : Option String
  lastCommand : Option Nat
  reconnectAttempts : Nat
deriving DecidableEq, Repr

/-- Translation of the public `sendCommand(command)`:
guard `!isConnected || !characteristic` sets the "not connected" error and
returns without writing; otherwise delegate to `sendCommandInternal`; on
success record the command and clear the error; on failure set the
send-error message and, when `device.gatt.connected` is false, drop the
connected flag and the characteristic. -/
def sendCommand (s : ProviderState) (command : Nat) : ProviderState × SendResult :=
  match s.characteristic, s.isConnected with
  | some char, true =>
    let r := sendCommandInternal char command
    if r.ok then
      ({ s with error := none, lastCommand := some command }, r)
    else
      let s1 := { s with error := some "Error al enviar comando al dispositivo" }
      let s2 :=
        match s.device with
        | some d =>
          if d.gattConnected = false then
            { s1 with isConnected := false, characteristic := none }
          else s1
        | none => s1
      (s2, r)
  | _, _ =>
    ({ s with error := some "No hay conexión Bluetooth activa" }, emptySendResult)

/-- Translation of `handleDisconnect()` (the give-up path): drops the
connected flag, clears the characteristic and the device name, sets the
error "Dispositivo desconectado" and raises the disconnected
notification.  The `device` field and the retry counter are not touched
by the source. -/
def handleDisconnect (s : ProviderState) : ProviderState × List Notification :=
  ({ s with isConnected := false, characteristic := none, deviceName := none,
            error := some "Dispositivo desconectado" },
   [disconnectedNotification])

/-- Result of one run of the `gattserverdisconnected` event listener:
the updated provider state, the backoff (in ms) of the retry timer it
scheduled via `setTimeout`, if any, and the notifications it raised. -/
structure HandlerResult where
  state : ProviderState
  scheduledRetry : Option Nat
  notifications : List Notification
deriving DecidableEq, Repr

/-- Translation of the `gattserverdisconnected` listener registered in
`connect()`: drop the connected flag and the characteristic; if
`reconnectAttempts < 3`, increment the counter to `attempt` and schedule
a `connect()` retry after `1000 * attempt` ms; otherwise run
`handleDisconnect`. -/
def onGattDisconnected (s : ProviderState) : HandlerResult :=
  let s0 := { s with isConnected := false, characteristic := none }
  if s0.reconnectAttempts < 3 then
    let attempt := s0.reconnectAttempts + 1
    { state := { s0 with reconnectAttempts := attempt }
      scheduledRetry := some (1000 * attempt)
      notifications := [] }
  else
    let p := handleDisconnect s0
    { state := p.1, scheduledRetry := none, notifications := p.2 }

/-- Translation of `disconnect()`: calls `device.gatt.disconnect()` when
connected, then clears `device`, `characteristic`, `isConnected`,
`deviceName` and `lastCommand`.  The source contains no `clearTimeout`
and does not touch `reconnectAttempts` or `error`. -/
def disconnect (s : ProviderState) : ProviderState :=
  { s with device := none, characteristic := none, isConnected := false,
           deviceName := none, lastCommand := none }

/-- Translation of the success tail of `connect()` once a device is
selected and a characteristic resolved: store the device and its display
name, store the characteristic, mark connected, clear the error.  The
source performs no write to `reconnectAttempts` here (nor anywhere else
besides the disconnect listener). -/
def connectSuccessUpdate (s : ProviderState) (d : Device) (char : Characteristic) :
    ProviderState :=
  { s with device := some d,
           deviceName := some ((d.name).getD d.id),
           characteristic := some char,
           isConnected := true,
           error := none }

/-- A GATT primary service as seen by the fallback resolver: its uuid and
the result of `getCharacteristics()` — `none` when that call throws
(the inner `catch` skips the service), `some cs` otherwise. -/
structure BTService where
  uuid : String
  charsResult : Option (List Characteristic)
deriving DecidableEq, Repr

/-- Whether a characteristic qualifies for the fallback search:
`c.properties.write || c.properties.writeWithoutResponse`. -/
def isWritable (c : Characteristic) : Bool :=
  c.props.write || c.props.writeWithoutResponse

/-- Translation of the fallback loop of `connect()`: iterate the services
in platform-reported order; for each, fetch its characteristics (skipping
the service when that call throws) and take the first writable one;
stop at the first match. -/
def resolveFallback : List BTService → Option Characteristic
  | [] => none
  | svc :: rest =>
    match svc.charsResult with
    | none => resolveFallback rest
    | some cs =>
      match cs.find? isWritable with
      | some c => some c
      | none => resolveFallback rest

/-- Translation of the whole resolver step of `connect()`: the attempt on
the well-known Arduino service/characteristic yields `knownResult`
(`none` when that `try` block threw); on failure fall back to
`resolveFallback`; when that also finds nothing, `connect()` throws
"No se encontró una característica escribible en el dispositivo BLE". -/
def resolveCharacteristic (knownResult : Option Characteristic)
    (services : List BTService) : Except String Characteristic :=
  match knownResult with
  | some c => .ok c
  | none =>
    match resolveFallback services with
    | some c => .ok c
    | none => .error "No se encontró una característica escribible en el dispositivo BLE"

/-- All characteristics exposed by a service list, flattened in
platform-reported order (services whose enumeration throws contribute
nothing). -/
def enumChars (services : List BTService) : List Characteristic :=
  services.flatMap (fun svc => svc.charsResult.getD [])

/-- State of the reconnect supervisor as a whole: the provider state, the
queue of pending `setTimeout` retry callbacks (their backoffs, in
schedule order), a log of every backoff ever scheduled, and a count of
`connect()` invocations performed by fired timers. -/
structure SupState where
  ps : ProviderState
  pendingTimers : List Nat
  scheduledBackoffs : List Nat
  connectInvocations : Nat
deriving DecidableEq, Repr

/-- Events driving the supervisor: an unsolicited link loss (the
`gattserverdisconnected` event), a user call to `disconnect()`, and the
firing of the oldest pending retry timer. -/
inductive Ev where
  | linkLoss
  | userDisconnect
  | timerFires
deriving DecidableEq, Repr

/-- One supervisor step.  A link loss runs the event listener and queues
whatever retry it schedules.  `disconnect()` updates the provider state
only: the source never cancels a `setTimeout`, so the timer queue is
unchanged.  A firing timer is consumed and invokes `connect()`. -/
def step (st : SupState) (e : Ev) : SupState :=
  match e with
  | .linkLoss =>
    let r := onGattDisconnected st.ps
    { st with ps := r.state,
              pendingTimers := st.pendingTimers ++ r.scheduledRetry.toList,
              scheduledBackoffs := st.scheduledBackoffs ++ r.scheduledRetry.toList }
  | .userDisconnect =>
    { st with ps := disconnect st.ps }
  | .timerFires =>
    match st.pendingTimers with
    | [] => st
    | _ :: rest =>
      { st with pendingTimers := rest,
                connectInvocations := st.connectInvocations + 1 }

/-- Run a sequence of supervisor events. -/
def run (st : SupState) (es : List Ev) : SupState :=
  es.foldl step st

/-- A sample characteristic: writable with response, transport accepts
acknowledged writes. -/
def sampleChar : Characteristic :=
  { props := { write := true, writeWithoutResponse := false, notify := false }
    writeValueOk := true
    hasWriteValueWithoutResponse := false
    writeValueWithoutResponseOk := false }

/-- A sample device handle. -/
def sampleDevice : Device :=
  { name := some "Arduino Nado", id := "dev-1", gattConnected := true }

/-- A freshly connected provider state: the state right after a first
successful `connect()` (retry counter 0, no pending timers). -/
def connectedState : ProviderState :=
  { device := some sampleDevice
    characteristic := some sampleChar
    isConnected := true
    isConnecting := false
    deviceName := some "Arduino Nado"
    error := none
    lastCommand := some LED_OFF
    reconnectAttempts := 0 }

/-- The supervisor state right after a first successful `connect()`. -/
def initialSupState : SupState :=
  { ps := connectedState
    pendingTimers := []
    scheduledBackoffs := []
    connectInvocations := 0 }

/-- Translation of `useBluetooth()`: throws when called outside a
`BluetoothProvider` (context undefined), otherwise returns the context
value. -/
def useBluetooth (ctx : Option ProviderState) : Except String ProviderState :=
  match ctx with
  | none => .error "useBluetooth must be used within a BluetoothProvider"
  | some c => .ok c

/-- Helper: `find?` distributes over list append. -/
theorem find_append {α : Type} (p : α → Bool) :
    ∀ l₁ l₂ : List α, (l₁ ++ l₂).find? p =
      match l₁.find? p with
      | some x => some x
      | none => l₂.find? p := by
  intro l₁
  induction l₁ with
  | nil => intro l₂; simp
  | cons a l ih =>
    intro l₂
    by_cases h : p a
    · simp [List.find?, h]
    · rw [Bool.not_eq_true] at h
      simp [List.find?, h, ih]

/-- C1: for every command code 0–5, `sendCommand` while Connected
(connected flag set, characteristic resolved, transport accepting the
write) performs exactly one successful write whose single payload byte
equals the code's numeric value, and reports success. -/
theorem sendCommand_connected_single_write
    (s : ProviderState) (char : Characteristic) (cmd : Nat)
    (hconn : s.isConnected = true) (hchar : s.characteristic = some char)
    (hwv : char.writeValueOk = true) (hcmd : cmd < 6) :
    (sendCommand s cmd).2.writes =
      [{ mode := WriteMode.acked, payload := [cmd], ok := true }] ∧
    (sendCommand s cmd).2.ok = true ∧
    (sendCommand s cmd).1.lastCommand = some cmd ∧
    (sendCommand s cmd).1.error = none := by
  have hb : cmd % 256 = cmd := Nat.mod_eq_of_lt (Nat.lt_trans hcmd (by norm_num))
  simp [sendCommand, sendCommandInternal, hconn, hchar, hwv, hb]

/-- Witness for C1 at the sample connected state and command 5. -/
theorem sendCommand_connected_single_write_witness :
    (sendCommand connectedState 5).2.writes =
      [{ mode := WriteMode.acked, payload := [5], ok := true }] ∧
    (sendCommand connectedState 5).2.ok = true ∧
    (sendCommand connectedState 5).1.lastCommand = some 5 ∧
    (sendCommand connectedState 5).1.error = none :=
  sendCommand_connected_single_write connectedState sampleChar 5
    rfl rfl rfl (by norm_num)

/-- C2: `sendCommand` while not Connected (connected flag down or no
resolved characteristic) only sets the "not connected" error: the state
is otherwise unchanged and no write and no notification happens. -/
theorem sendCommand_not_connected (s : ProviderState) (cmd : Nat)
    (h : s.isConnected = false ∨ s.characteristic = none) :
    sendCommand s cmd =
      ({ s with error := some "No hay conexión Bluetooth activa" },
       emptySendResult) := by
  cases h with
  | inl h1 =>
    cases hc : s.characteristic with
    | none => simp [sendCommand, hc]
    | some c => simp [sendCommand, hc, h1]
  | inr h2 => simp [sendCommand, h2]

/-- Witness for C2 at a disconnected sample state and command 2. -/
theorem sendCommand_not_connected_witness :
    sendCommand { connectedState with isConnected := false } 2 =
      ({ connectedState with isConnected := false,
                             error := some "No hay conexión Bluetooth activa" },
       emptySendResult) :=
  sendCommand_not_connected { connectedState with isConnected := false } 2
    (Or.inl rfl)

/-- C3 counterexample: after a link loss schedules a retry, a
`disconnect()` leaves that timer pending (the source has no
`clearTimeout`), and when the timer fires it invokes `connect()` —
so a reconnection attempt does fire after `disconnect()`. -/
theorem disconnect_retry_counterexample :
    (run initialSupState [Ev.linkLoss, Ev.userDisconnect]).pendingTimers = [1000] ∧
    (run initialSupState [Ev.linkLoss, Ev.userDisconnect]).ps.isConnected = false ∧
    (run initialSupState [Ev.linkLoss, Ev.userDisconnect]).ps.device = none ∧
    (run initialSupState [Ev.linkLoss, Ev.userDisconnect]).connectInvocations = 0 ∧
    (step (run initialSupState [Ev.linkLoss, Ev.userDisconnect])
        Ev.timerFires).connectInvocations = 1 := by
  decide

/-- C3 amended: `disconnect()` clears the device, characteristic, device
name and last command and drops the connected flag, but leaves every
pending retry timer in place — a retry scheduled before the
`disconnect()` can still fire afterwards. -/
theorem disconnect_leaves_pending_timers (st : SupState) :
    (step st Ev.userDisconnect).pendingTimers = st.pendingTimers ∧
    (step st Ev.userDisconnect).ps.isConnected = false ∧
    (step st Ev.userDisconnect).ps.device = none ∧
    (step st Ev.userDisconnect).ps.characteristic = none ∧
    (step st Ev.userDisconnect).ps.deviceName = none ∧
    (step st Ev.userDisconnect).ps.lastCommand = none := by
  simp [step, disconnect]

/-- The supervisor invariant for the retry schedule: the counter stays at
most 3 and the scheduled backoffs so far are exactly
`1000·1, …, 1000·counter`. -/
def SupInv (st : SupState) : Prop :=
  st.ps.reconnectAttempts ≤ 3 ∧
  st.scheduledBackoffs =
    (List.range st.ps.reconnectAttempts).map (fun i => 1000 * (i + 1))

/-- Every supervisor step preserves the retry-schedule invariant. -/
theorem supInv_step (st : SupState) (e : Ev) (h : SupInv st) :
    SupInv (step st e) := by
  obtain ⟨h1, h2⟩ := h
  cases e with
  | linkLoss =>
    by_cases hlt : st.ps.reconnectAttempts < 3
    · constructor
      · simp [step, onGattDisconnected, hlt]
        omega
      · simp [step, onGattDisconnected, hlt, h2, List.range_succ]
    · constructor
      · simp [step, onGattDisconnected, hlt, handleDisconnect]
        exact h1
      · simp [step, onGattDisconnected, hlt, handleDisconnect, h2]
  | userDisconnect =>
    exact ⟨by simpa [step, disconnect] using h1, by simpa [step, disconnect] using h2⟩
  | timerFires =>
    cases hp : st.pendingTimers with
    | nil => exact ⟨by simpa [step, hp] using h1, by simpa [step, hp] using h2⟩
    | cons t rest =>
      exact ⟨by simpa [step, hp] using h1, by simpa [step, hp] using h2⟩

/-- Running any event sequence preserves the retry-schedule invariant. -/
theorem supInv_run (es : List Ev) : ∀ st : SupState, SupInv st → SupInv (run st es) := by
  induction es with
  | nil => intro st h; simpa [run] using h
  | cons e rest ih =>
    intro st h
    have h1 : SupInv (step st e) := supInv_step st e h
    simpa [run] using ih (step st e) h1

/-- C4: starting from a freshly connected state, over every sequence of
link losses, disconnects and timer firings, at most 3 reconnection
attempts are ever scheduled, and the n-th attempt (1-indexed) is
scheduled with a backoff of exactly 1000·n ms. -/
theorem reconnect_backoff_schedule (es : List Ev) :
    (run initialSupState es).ps.reconnectAttempts ≤ 3 ∧
    (run initialSupState es).scheduledBackoffs =
      (List.range (run initialSupState es).ps.reconnectAttempts).map
        (fun i => 1000 * (i + 1)) := by
  have h0 : SupInv initialSupState := by
    constructor
    · decide
    · decide
  exact supInv_run es initialSupState h0

/-- C5 counterexample: a successful connection while the retry counter is
1 leaves the counter at 1 (not reset to 0), and a `disconnect()` while
the counter is 2 leaves it at 2 — the source contains no
`setReconnectAttempts(0)` at all. -/
theorem retry_counter_not_reset_counterexample :
    (connectSuccessUpdate
        { connectedState with reconnectAttempts := 1, isConnected := false }
        sampleDevice sampleChar).reconnectAttempts = 1 ∧
    (disconnect { connectedState with reconnectAttempts := 2 }).reconnectAttempts = 2 := by
  decide

/-- C5 amended: the retry counter is never reset: the `connect()` success
path, `disconnect()` and `handleDisconnect` all leave it unchanged; the
only write to it is the increment in the link-loss handler, taken while
the counter is below 3. -/
theorem retry_counter_never_reset (s : ProviderState) (d : Device)
    (char : Characteristic) :
    (connectSuccessUpdate s d char).reconnectAttempts = s.reconnectAttempts ∧
    (disconnect s).reconnectAttempts = s.reconnectAttempts ∧
    (handleDisconnect s).1.reconnectAttempts = s.reconnectAttempts ∧
    (onGattDisconnected s).state.reconnectAttempts =
      (if s.reconnectAttempts < 3 then s.reconnectAttempts + 1
       else s.reconnectAttempts) := by
  refine ⟨rfl, rfl, rfl, ?_⟩
  by_cases h : s.reconnectAttempts < 3
  · simp [onGattDisconnected, h]
  · simp [onGattDisconnected, h, handleDisconnect]

/-- C6 counterexample: when the link-loss handler runs with the retry
counter exhausted, the device reference (the Session) is NOT cleared —
`handleDisconnect` never calls `setDevice(null)`. -/
theorem session_not_cleared_counterexample :
    (onGattDisconnected
        { connectedState with reconnectAttempts := 3 }).state.device =
      some sampleDevice := by
  decide

/-- C6 amended: a link-loss event arriving with the retry counter
exhausted (≥ 3) yields the Failed state: connected flag down,
characteristic and device name cleared, error "Dispositivo desconectado",
no retry scheduled, the disconnected notification raised — but the
device reference is retained; every further `sendCommand` performs zero
writes and zero notifications. -/
theorem exhausted_retries_failed_state (s : ProviderState) (cmd : Nat)
    (h : 3 ≤ s.reconnectAttempts) :
    (onGattDisconnected s).state.isConnected = false ∧
    (onGattDisconnected s).state.characteristic = none ∧
    (onGattDisconnected s).state.deviceName = none ∧
    (onGattDisconnected s).state.error = some "Dispositivo desconectado" ∧
    (onGattDisconnected s).scheduledRetry = none ∧
    (onGattDisconnected s).notifications = [disconnectedNotification] ∧
    (onGattDisconnected s).state.device = s.device ∧
    (sendCommand (onGattDisconnected s).state cmd).2.writes = [] ∧
    (sendCommand (onGattDisconnected s).state cmd).2.notifications = [] := by
  have hlt : ¬ s.reconnectAttempts < 3 := Nat.not_lt.mpr h
  refine ⟨?_, ?_, ?_, ?_, ?_, ?_, ?_, ?_, ?_⟩ <;>
    simp [onGattDisconnected, hlt, handleDisconnect, sendCommand, emptySendResult]

/-- Witness for C6 amended at the sample state with counter 3 and
command 2. -/
theorem exhausted_retries_failed_state_witness :
    3 ≤ ({ connectedState with reconnectAttempts := 3 } : ProviderState).reconnectAttempts ∧
    (sendCommand (onGattDisconnected
        { connectedState with reconnectAttempts := 3 }).state 2).2.writes = [] :=
  ⟨by decide,
   (exhausted_retries_failed_state
      { connectedState with reconnectAttempts := 3 } 2 (by decide)).2.2.2.2.2.2.2.1⟩

/-- Helper: when every service's characteristic enumeration succeeds, the
fallback loop returns exactly the first writable characteristic of the
flattened, platform-ordered enumeration. -/
theorem resolveFallback_eq_find (services : List BTService)
    (h : ∀ svc ∈ services, svc.charsResult ≠ none) :
    resolveFallback services = (enumChars services).find? isWritable := by
  induction services with
  | nil => simp [resolveFallback, enumChars]
  | cons svc rest ih =>
    have hsvc : svc.charsResult ≠ none := h svc (List.mem_cons_self svc rest)
    obtain ⟨cs, hcs⟩ : ∃ cs, svc.charsResult = some cs := by
      cases hx : svc.charsResult with
      | none => exact absurd hx hsvc
      | some cs => exact ⟨cs, rfl⟩
    have hrest : ∀ s ∈ rest, s.charsResult ≠ none :=
      fun s hs => h s (List.mem_cons_of_mem svc hs)
    have henum : enumChars (svc :: rest) = cs ++ enumChars rest := by
      simp [enumChars, hcs]
    rw [henum, find_append]
    simp only [resolveFallback, hcs]
    cases hfind : cs.find? isWritable with
    | none => simpa [hfind] using ih hrest
    | some c => simp [hfind]

/-- C7: when the well-known identifiers fail to resolve and the platform
enumeration succeeds, the resolver selects the first characteristic in
platform-reported order whose properties include write or
writeWithoutResponse; `connect()` succeeds with it when one exists and
fails with the no-writable-characteristic error when none does. -/
theorem resolver_fallback_first_writable (services : List BTService)
    (h : ∀ svc ∈ services, svc.charsResult ≠ none) :
    resolveFallback services = (enumChars services).find? isWritable ∧
    resolveCharacteristic none services =
      Option.elim ((enumChars services).find? isWritable)
        (Except.error "No se encontró una característica escribible en el dispositivo BLE")
        Except.ok := by
  have h1 := resolveFallback_eq_find services h
  refine ⟨h1, ?_⟩
  simp only [resolveCharacteristic, h1]
  cases (enumChars services).find? isWritable with
  | none => rfl
  | some c => rfl

/-- A characteristic with no write capability flags at all. -/
def nonWritableChar : Characteristic :=
  { props := { write := false, writeWithoutResponse := false, notify := true }
    writeValueOk := false
    hasWriteValueWithoutResponse := false
    writeValueWithoutResponseOk := false }

/-- A characteristic advertising only the unacknowledged write flag. -/
def unackedOnlyChar : Characteristic :=
  { props := { write := false, writeWithoutResponse := true, notify := false }
    writeValueOk := false
    hasWriteValueWithoutResponse := true
    writeValueWithoutResponseOk := true }

/-- A sample service list whose first service has no writable
characteristic and whose second service has one. -/
def sampleServices : List BTService :=
  [ { uuid := "svc-a", charsResult := some [nonWritableChar] },
    { uuid := "svc-b", charsResult := some [nonWritableChar, unackedOnlyChar] } ]

/-- Witness for C7 at the sample service list: the fallback selects the
writable characteristic of the second service and `connect()` succeeds
with it. -/
theorem resolver_fallback_first_writable_witness :
    (∀ svc ∈ sampleServices, svc.charsResult ≠ none) ∧
    resolveCharacteristic none sampleServices = Except.ok unackedOnlyChar := by
  refine ⟨by decide, ?_⟩
  rw [(resolver_fallback_first_writable sampleServices (by decide)).2]
  rfl

/-- C8 counterexample: on an endpoint advertising only unacknowledged
write, the first write attempt is still an acknowledged `writeValue`
(the source never consults the capability flags); and on an endpoint
advertising unacknowledged write whose object lacks the
`writeValueWithoutResponse` method, no unacknowledged fallback happens
at all — both contradict flag-driven write-mode selection. -/
theorem write_mode_selection_counterexample :
    unackedOnlyChar.props.write = false ∧
    unackedOnlyChar.props.writeWithoutResponse = true ∧
    (sendCommandInternal unackedOnlyChar 2).writes.map WriteAttempt.mode =
      [WriteMode.acked, WriteMode.unacked] ∧
    ({ unackedOnlyChar with hasWriteValueWithoutResponse := false
       : Characteristic }).props.writeWithoutResponse = true ∧
    (sendCommandInternal
        { unackedOnlyChar with hasWriteValueWithoutResponse := false }
        2).writes.map WriteAttempt.mode = [WriteMode.acked] ∧
    (sendCommandInternal
        { unackedOnlyChar with hasWriteValueWithoutResponse := false }
        2).ok = false := by
  decide

/-- C8 amended: the channel ignores the advertised capability flags
entirely (its result is invariant under any flag assignment); it always
attempts an acknowledged `writeValue` first, falls back exactly once to
`writeValueWithoutResponse` when the acknowledged write throws and the
characteristic object exposes that method, and otherwise the failure
propagates with no further attempt. -/
theorem write_mode_actual_behavior (char : Characteristic) (p : CharProps)
    (cmd : Nat) :
    sendCommandInternal { char with props := p } cmd = sendCommandInternal char cmd ∧
    (sendCommandInternal char cmd).writes.map WriteAttempt.mode =
      (if char.writeValueOk then [WriteMode.acked]
       else if char.hasWriteValueWithoutResponse then [WriteMode.acked, WriteMode.unacked]
       else [WriteMode.acked]) ∧
    (sendCommandInternal char cmd).ok =
      (char.writeValueOk ||
        (char.hasWriteValueWithoutResponse && char.writeValueWithoutResponseOk)) := by
  obtain ⟨q, wv, hm, wvo⟩ := char
  cases wv <;> cases hm <;> cases wvo <;>
    simp [sendCommandInternal]

/-- C9: the hydration-reminder notification is raised exactly once by a
`sendCommandInternal` call if and only if the call succeeds and the
command is WATER; every other command, and every failed call, raises
zero hydration notifications. -/
theorem hydration_notification_iff_water (char : Characteristic) (cmd : Nat) :
    (sendCommandInternal char cmd).notifications.count hydrationNotification =
      (if (sendCommandInternal char cmd).ok = true ∧ cmd = LED_WATER
       then 1 else 0) := by
  obtain ⟨q, wv, hm, wvo⟩ := char
  by_cases hw : cmd = LED_WATER <;>
    cases wv <;> cases hm <;> cases wvo <;>
      simp [sendCommandInternal, hw]

/-- C10: `useBluetooth` throws the provider error exactly when called
outside a `BluetoothProvider` (context undefined), and inside a provider
it returns the full context value without throwing. -/
theorem useBluetooth_spec (c : ProviderState) :
    useBluetooth none =
      Except.error "useBluetooth must be used within a BluetoothProvider" ∧
    useBluetooth (some c) = Except.ok c :=
  ⟨rfl, rfl⟩

end Lumi
